import Mathlib

/-!
Shallow embedding of the D3 network-map visualization (`map.js`, class
`NetworkMap`): snapshot data model, particle progress/position functions,
keyed-join reconciliation, node/edge visual encodings, and the
tooltip/details-panel state machine.  Numeric snapshot fields are modelled
as exact rationals; projected surface coordinates as reals.  JavaScript
`undefined` fields are modelled as `Option`, and the JS `x || d` default
idiom as an explicit match (`0` is falsy in JS, so `x || d` maps both a
missing field and a zero field to `d`; this is reproduced faithfully).
-/

namespace NetworkMap

/-- Geographic location of a node (`node.location` in the snapshot). -/
structure Location where
  lon : ℚ
  lat : ℚ
  city : String
  state : String

/-- Per-supplier scorecard entry (`supplier_relationships[id]`). -/
structure SupplierMetrics where
  orders_delivered : ℚ
  on_time_rate : ℚ

/-- The subset of `node.state` fields the renderer reads.  Fields the code
guards with `|| 0` / `|| {}` are `Option`-valued. -/
structure NodeState where
  production_rate : Option ℚ
  orders_placed : Option ℚ
  total_revenue : Option ℚ
  total_production_costs : Option ℚ
  total_rate_change_costs : Option ℚ
  supplier_relationships : Option (List (String × SupplierMetrics))

/-- A snapshot node.  `sourcing_policy` models the optional chain
`properties?.sourcing_policy?.type`. -/
structure Node where
  id : String
  type : String
  name : String
  location : Location
  state : NodeState
  sourcing_policy : Option String

/-- One in-transit delivery record carried by an edge. -/
structure Delivery where
  order_id : String
  start_time : Option ℚ
  duration : Option ℚ

/-- A snapshot edge.  `from` is a Lean keyword, hence `from_` / `to_`. -/
structure Edge where
  from_ : String
  to_ : String
  edge_type : String
  active_orders : Option ℚ
  deliveries : Option (List Delivery)

/-- An inbound snapshot (`update(state)` argument); missing collections
default to empty, missing `time` to `0`, missing `running` to `false`. -/
structure Snapshot where
  time : Option ℚ
  running : Option Bool
  nodes : Option (List Node)
  edges : Option (List Edge)

/-- The geographic projection: `projection([lon, lat])` returns a surface
point or `null` (modelled as `none`) outside the projectable frame. -/
abbrev Projection := ℚ → ℚ → Option (ℝ × ℝ)

/-- `this.nodes.find(n => n.id === nodeId)`. -/
def findNode (nodes : List Node) (nid : String) : Option Node :=
  nodes.find? (fun n => n.id == nid)

/-- `getNodeProjection(nodeId)`: missing node or `null` projection falls
back to `[0, 0]` (source lines 416-422). -/
def getNodeProjection (nodes : List Node) (proj : Projection) (nid : String) : ℝ × ℝ :=
  match findNode nodes nid with
  | none => (0, 0)
  | some n => (proj n.location.lon n.location.lat).getD (0, 0)

/-- Node render transform (source line 321): the projection result is
destructured directly with no null check, so a `null` projection throws a
TypeError; `none` models that thrown exception (no fallback). -/
def nodeTransform (proj : Projection) (n : Node) : Option (ℝ × ℝ) :=
  proj n.location.lon n.location.lat

/-- `d.delivery.start_time || 0`. -/
def effStart (d : Delivery) : ℚ :=
  (d.start_time).getD 0

/-- `d.delivery.duration || 10`: a missing or zero duration becomes 10. -/
def effDuration (d : Delivery) : ℚ :=
  match d.duration with
  | none => 10
  | some q => if q = 0 then 10 else q

/-- `Math.max(0, Math.min(1, x))`. -/
def clamp01 (x : ℚ) : ℚ :=
  max 0 (min 1 x)

/-- Particle progress at simulation time `t` (source lines 259-269):
`progress = 0` unless the effective duration is positive, in which case
`(t - start) / duration` clamped to `[0, 1]`. -/
def progress (t : ℚ) (d : Delivery) : ℚ :=
  if 0 < effDuration d then clamp01 ((t - effStart d) / effDuration d) else 0

/-- `d.active_orders > 0` in JS: `undefined > 0` is `false`. -/
def activeOrdersPos (e : Edge) : Bool :=
  match e.active_orders with
  | some a => decide (0 < a)
  | none => false

/-- Edge stroke color (source lines 172-181): three-way branch on
`edge_type`; anything that is neither structural nor order_placement gets
the delivery red. -/
def edgeStroke (e : Edge) : String :=
  if e.edge_type = "structural" then "rgba(100, 100, 100, 0.2)"
  else if e.edge_type = "order_placement" then "rgba(59, 130, 246, 0.7)"
  else "rgba(239, 68, 68, 0.7)"

/-- Edge stroke width (source lines 182-193): structural edges are always
1; others are 2 when orders are active, else 1. -/
def edgeStrokeWidth (e : Edge) : ℚ :=
  if e.edge_type = "structural" then 1
  else if activeOrdersPos e then 2 else 1

/-- Edge stroke opacity (source lines 194-201): the branch tests only
`active_orders > 0` — there is no structural special case here. -/
def edgeStrokeOpacity (e : Edge) : ℚ :=
  if activeOrdersPos e then 6/10 else 2/10

/-- One element of the flattened particle data list (source lines
221-228); the reconciliation key is `delivery.order_id`. -/
structure ParticleDatum where
  edge : Edge
  delivery : Delivery
  deliveryIndex : ℕ

/-- Flattening of `renderOrderFlows` (source lines 217-228): keep only
delivery-type edges with `active_orders > 0`, then one particle per entry
of `edge.deliveries || []`, tagged with its same-edge index. -/
def deliveryParticles (edges : List Edge) : List ParticleDatum :=
  (edges.filter (fun e => e.edge_type == "delivery" && activeOrdersPos e)).flatMap
    (fun e => ((e.deliveries.getD []).enum).map (fun p => ⟨e, p.2, p.1⟩))

/-- The keys bound to the particle collection: one `order_id` per particle
datum. -/
def particleKeys (edges : List Edge) : List String :=
  (deliveryParticles edges).map (fun pd => pd.delivery.order_id)

/-- `(d.deliveryIndex % 3) - 1` (source line 277): the stagger amount, an
integer in `{-1, 0, 1}`. -/
def offsetAmount (idx : ℕ) : ℝ :=
  ((idx % 3 : ℕ) : ℝ) - 1

/-- Particle position update (source lines 248-287).  `none` models the
early `return` when `!x1 || !x2` (JS treats `0` as falsy, so a projected
or fallback x-coordinate of exactly 0 skips the frame).  The perpendicular
angle is `atan2(dy, dx) + π/2`, with `atan2(y, x)` embedded as the
argument of the complex number `x + y·i`. -/
noncomputable def particlePos (nodes : List Node) (proj : Projection) (t : ℚ)
    (pd : ParticleDatum) : Option (ℝ × ℝ) :=
  let p1 := getNodeProjection nodes proj pd.edge.from_
  let p2 := getNodeProjection nodes proj pd.edge.to_
  if p1.1 = 0 ∨ p2.1 = 0 then none
  else
    let prog : ℝ := (progress t pd.delivery : ℚ)
    let x := p1.1 + prog * (p2.1 - p1.1)
    let y := p1.2 + prog * (p2.2 - p1.2)
    let perpAngle := Complex.arg ⟨p2.1 - p1.1, p2.2 - p1.2⟩ + Real.pi / 2
    some (x + Real.cos perpAngle * offsetAmount pd.deliveryIndex,
          y + Real.sin perpAngle * offsetAmount pd.deliveryIndex)

/-- Result of one D3 keyed data join over a collection of element keys
(previous pass) against a list of data keys (current pass).  Faithful to
`selection.data(data, key)` followed by enter/merge/exit when the key
lists are duplicate-free: `entered` are data keys with no matching
element, `exited` are element keys with no matching datum, and `after` —
the elements present after `enter.append ... exit.remove()` — carry
exactly the data keys. -/
structure JoinResult where
  entered : List String
  updated : List String
  exited : List String
  after : List String

/-- One reconciliation pass: previous element keys against current data
keys. -/
def joinPass (prev cur : List String) : JoinResult :=
  { entered := cur.filter (fun k => !(prev.contains k))
    updated := cur.filter (fun k => prev.contains k)
    exited := prev.filter (fun k => !(cur.contains k))
    after := cur }

/-- Node join key (`d => d.id`, source line 302). -/
def nodeKeys (nodes : List Node) : List String :=
  nodes.map (fun n => n.id)

/-- Edge join key (source line 161). -/
def edgeKey (e : Edge) : String :=
  e.edge_type ++ "-" ++ e.from_ ++ "-" ++ e.to_

/-- Keys bound to the edge collection: every edge, no filtering. -/
def edgeKeys (edges : List Edge) : List String :=
  edges.map edgeKey

/-- Label join key (`d => d.id`, source line 388). -/
def labelKeys (nodes : List Node) : List String :=
  nodes.map (fun n => n.id)

/-- `manufacturingCenters.reduce((sum, n) => sum + (n.state.production_rate || 0), 0)`. -/
def totalProduction (nodes : List Node) : ℚ :=
  ((nodes.filter (fun n => n.type == "manufacturing_center")).map
    (fun n => n.state.production_rate.getD 0)).sum

/-- `distributors.reduce((sum, n) => sum + (n.state.orders_placed || 0), 0)`. -/
def totalOrders (nodes : List Node) : ℚ :=
  ((nodes.filter (fun n => n.type == "distributor")).map
    (fun n => n.state.orders_placed.getD 0)).sum

/-- Node radius (source lines 339-349): manufacturing centers scale
`4 + ratio * 8` with fallback ratio `0.33`; distributors `3 + ratio * 6`
with fallback `0.125`. -/
def nodeRadius (nodes : List Node) (n : Node) : ℚ :=
  if n.type = "manufacturing_center" then
    let productionRate := n.state.production_rate.getD 0
    let ratio := if 0 < totalProduction nodes then productionRate / totalProduction nodes
                 else 33/100
    4 + ratio * 8
  else
    let ordersPlaced := n.state.orders_placed.getD 0
    let ratio := if 0 < totalOrders nodes then ordersPlaced / totalOrders nodes
                 else 1/8
    3 + ratio * 6

/-- `node.properties?.sourcing_policy?.type || 'nearest_neighbor'`. -/
def sourcingPolicy (n : Node) : String :=
  (n.sourcing_policy).getD "nearest_neighbor"

/-- `node.state.supplier_relationships || {}` as an entry list. -/
def relationships (n : Node) : List (String × SupplierMetrics) :=
  (n.state.supplier_relationships).getD []

/-- The comparator `(a, b) => b[1].orders_delivered - a[1].orders_delivered`
as the sort order it induces: `a` precedes `b` when `a` has at least as
many delivered orders. -/
def supplierOrder (a b : String × SupplierMetrics) : Prop :=
  b.2.orders_delivered ≤ a.2.orders_delivered

instance : DecidableRel supplierOrder :=
  fun a b => inferInstanceAs (Decidable (b.2.orders_delivered ≤ a.2.orders_delivered))

instance : IsTotal (String × SupplierMetrics) supplierOrder :=
  ⟨fun a b => le_total b.2.orders_delivered a.2.orders_delivered⟩

instance : IsTrans (String × SupplierMetrics) supplierOrder :=
  ⟨fun _ _ _ hab hbc => le_trans hbc hab⟩

/-- `Object.entries(relationships).sort(...)`: a stable sort by descending
`orders_delivered` (`Array.prototype.sort` is stable; insertion sort with
the induced order models it faithfully). -/
def sortedSuppliers (n : Node) : List (String × SupplierMetrics) :=
  (relationships n).insertionSort supplierOrder

/-- One formatted supplier row: the display name comes from a same-cycle
lookup into the current node collection (city on hit, raw id on miss). -/
structure SupplierLine where
  displayName : String
  onTimeRate : ℚ
  ordersDelivered : ℚ

/-- Formatting of one supplier entry (source lines 605-611 / 518-523). -/
def supplierLine (nodes : List Node) (entry : String × SupplierMetrics) : SupplierLine :=
  { displayName :=
      match findNode nodes entry.1 with
      | some sn => sn.location.city
      | none => entry.1
    onTimeRate := entry.2.on_time_rate
    ordersDelivered := entry.2.orders_delivered }

/-- The supplier list rendered in the details panel (source lines
596-611): sorted, NOT truncated. -/
def panelSuppliers (nodes : List Node) (n : Node) : List SupplierLine :=
  (sortedSuppliers n).map (supplierLine nodes)

/-- The supplier list rendered in the tooltip (source lines 511-523):
sorted, then `.slice(0, 2)`. -/
def tooltipSuppliers (nodes : List Node) (n : Node) : List SupplierLine :=
  ((sortedSuppliers n).take 2).map (supplierLine nodes)

/-- Financial block shared by tooltip and panel for manufacturing centers
(source lines 486-491 / 577-582): each missing field defaults to 0, and
the margin guards division by a nonpositive revenue. -/
structure FinancialView where
  revenue : ℚ
  totalCosts : ℚ
  profit : ℚ
  profitMargin : ℚ

/-- Computation of the financial block. -/
def financialView (n : Node) : FinancialView :=
  let revenue := n.state.total_revenue.getD 0
  let prodCosts := n.state.total_production_costs.getD 0
  let rateCosts := n.state.total_rate_change_costs.getD 0
  let totalCosts := prodCosts + rateCosts
  let profit := revenue - totalCosts
  { revenue := revenue
    totalCosts := totalCosts
    profit := profit
    profitMargin := if 0 < revenue then profit / revenue * 100 else 0 }

/-- Structured content of the details panel (`updateDetailsPanel`). -/
structure PanelView where
  name : String
  displayType : String
  locationLine : String
  financial : Option FinancialView
  sourcing : Option (String × List SupplierLine)

/-- `updateDetailsPanel(node)` content (source lines 560-641). -/
def detailsPanelView (nodes : List Node) (n : Node) : PanelView :=
  { name := n.name
    displayType := n.type.replace "_" " "
    locationLine := n.location.city ++ ", " ++ n.location.state
    financial := if n.type = "manufacturing_center" then some (financialView n) else none
    sourcing := if n.type = "distributor" then some (sourcingPolicy n, panelSuppliers nodes n)
                else none }

/-- Structured content of the hover tooltip (`updateTooltip`). -/
structure TooltipView where
  name : String
  nodeType : String
  locationLine : String
  financial : Option FinancialView
  sourcing : Option (String × List SupplierLine)

/-- `updateTooltip(node)` content (source lines 464-530); the supplier
list is the top-2 slice. -/
def tooltipView (nodes : List Node) (n : Node) : TooltipView :=
  { name := n.name
    nodeType := n.type
    locationLine := n.location.city ++ ", " ++ n.location.state
    financial := if n.type = "manufacturing_center" then some (financialView n) else none
    sourcing := if n.type = "distributor" then some (sourcingPolicy n, tooltipSuppliers nodes n)
                else none }

/-- The mutable instance state that `update(state)` touches.  `tooltip`
models the `#tooltip` DOM element (`none` = absent), `panel` the
`#node-details` element (`none` = `display: none`). -/
structure MapState where
  nodes : List Node
  edges : List Edge
  currentTime : ℚ
  isRunning : Bool
  hoveredNode : Option Node
  selectedNode : Option Node
  tooltip : Option TooltipView
  panel : Option PanelView

/-- `update(state)` (source lines 126-150): store the snapshot, then — if
a node is hovered/selected AND its id is found in the new collection —
refresh the tooltip/panel from the updated node.  When the id is absent
nothing is cleared or hidden; `hoveredNode`/`selectedNode` are never
reassigned here.  `updateTooltip` only writes content if the tooltip
element exists (`if (tooltip.empty()) return`), while `updateDetailsPanel`
always shows the panel and replaces its content. -/
def update (m : MapState) (s : Snapshot) : MapState :=
  let nodes := s.nodes.getD []
  let edges := s.edges.getD []
  { nodes := nodes
    edges := edges
    currentTime := s.time.getD 0
    isRunning := s.running.getD false
    hoveredNode := m.hoveredNode
    selectedNode := m.selectedNode
    tooltip :=
      match m.hoveredNode with
      | some h =>
        match findNode nodes h.id with
        | some u => m.tooltip.map (fun _ => tooltipView nodes u)
        | none => m.tooltip
      | none => m.tooltip
    panel :=
      match m.selectedNode with
      | some sel =>
        match findNode nodes sel.id with
        | some u => some (detailsPanelView nodes u)
        | none => m.panel
      | none => m.panel }

/-! Concrete fixtures used by counterexamples and witnesses. -/

/-- A node state with every optional field absent. -/
def emptyNodeState : NodeState :=
  ⟨none, none, none, none, none, none⟩

/-- A delivery whose raw `duration` field is `0` (and `start_time` 0). -/
def dZero : Delivery := ⟨"o1", some 0, some 0⟩

/-- A delivery with `start_time = 0`, `duration = 10`. -/
def dTen : Delivery := ⟨"o2", some 0, some 10⟩

/-- A delivery with `start_time = 2`, `duration = 4`. -/
def dWit : Delivery := ⟨"w1", some 2, some 4⟩

/-- Node at longitude 10 (projected by `projAB` to `(1, 1)`). -/
def nA : Node := ⟨"A", "distributor", "A Node", ⟨10, 5, "CityA", "ST"⟩, emptyNodeState, none⟩

/-- Node at longitude 20 (projected by `projAB` to `(2, 1)`). -/
def nB : Node := ⟨"B", "distributor", "B Node", ⟨20, 5, "CityB", "ST"⟩, emptyNodeState, none⟩

/-- The two-node collection for the particle examples. -/
def nodesAB : List Node := [nA, nB]

/-- A projection sending `nA`'s location to `(1, 1)` and everything else
to `(2, 1)`. -/
def projAB : Projection := fun lon _ => if lon = 10 then some (1, 1) else some (2, 1)

/-- A projection that cannot project anything (always `null`). -/
def projNull : Projection := fun _ _ => none

/-- A delivery-type edge from `A` to `B` carrying one active delivery. -/
def edgeAB : Edge := ⟨"A", "B", "delivery", some 1, some [dTen]⟩

/-- The particle of `edgeAB`'s single delivery, same-edge index 0. -/
def pdIdx0 : ParticleDatum := ⟨edgeAB, dTen, 0⟩

/-- The same particle datum with same-edge index 1 (zero stagger). -/
def pdIdx1 : ParticleDatum := ⟨edgeAB, dTen, 1⟩

/-- The node whose selection the C3 scenario tracks. -/
def nX : Node := ⟨"X", "distributor", "X Distributor", ⟨10, 5, "Xcity", "ST"⟩, emptyNodeState, none⟩

/-- Map state with `nX` selected and its details panel shown. -/
def m0 : MapState :=
  { nodes := [nX]
    edges := []
    currentTime := 0
    isRunning := false
    hoveredNode := none
    selectedNode := some nX
    tooltip := none
    panel := some (detailsPanelView [nX] nX) }

/-- A snapshot whose node collection no longer contains `nX`. -/
def snapEmpty : Snapshot := ⟨some 1, some true, some [], some []⟩

/-- A small snapshot with one node and one active delivery edge. -/
def snapWit : Snapshot := ⟨some 0, some false, some [nA], some [edgeAB]⟩

/-- Manufacturing center with `production_rate = 10`. -/
def nM10 : Node :=
  ⟨"M10", "manufacturing_center", "M10 Plant", ⟨10, 5, "M10city", "ST"⟩,
   ⟨some 10, none, none, none, none, none⟩, none⟩

/-- Manufacturing center with `production_rate = 30`. -/
def nM30 : Node :=
  ⟨"M30", "manufacturing_center", "M30 Plant", ⟨20, 5, "M30city", "ST"⟩,
   ⟨some 30, none, none, none, none, none⟩, none⟩

/-- The two-manufacturer snapshot population for the radius example. -/
def nodes7 : List Node := [nM10, nM30]

/-- Structural edge with a positive activity count. -/
def eStructAct : Edge := ⟨"A", "B", "structural", some 1, none⟩

/-- Structural edge with zero activity count. -/
def eStructIdle : Edge := ⟨"A", "B", "structural", some 0, none⟩

/-- Distributor with three supplier relationships. -/
def nD3 : Node :=
  ⟨"D3", "distributor", "D3 Distributor", ⟨10, 5, "D3city", "ST"⟩,
   ⟨none, none, none, none, none,
    some [("s1", ⟨5, 9/10⟩), ("s2", ⟨7, 8/10⟩), ("s3", ⟨6, 1⟩)]⟩, none⟩

/-! Theorems. -/

/-- Claim C1, counterexample: the claim states `progress = 1` exactly when
`t ≥ start_time + duration`, quantified over deliveries with raw duration
`d = 0`.  For the delivery `dZero` (`start_time = 0`, `duration = 0`) at
`t = 5` we have `t ≥ 0 + 0`, yet the code computes `progress = 1/2`
(because `duration || 10` replaces the zero duration by 10), refuting the
claim at this concrete input. -/
theorem progress_zero_duration_cex :
    ((0 : ℚ) + 0 ≤ 5) ∧ progress 5 dZero = 1/2 ∧ (1/2 : ℚ) ≠ 1 := by
  refine ⟨by norm_num, ?_, by norm_num⟩
  norm_num [progress, effStart, effDuration, clamp01, dZero]

/-- Claim C1, amended: with the EFFECTIVE duration `D = effDuration d`
(the raw field, with a missing or zero field replaced by 10) and effective
start `s = effStart d`, whenever `D > 0` the computed progress satisfies
`0 ≤ progress ≤ 1`, `progress = 0` exactly when `t ≤ s`, and
`progress = 1` exactly when `t ≥ s + D`. -/
theorem progress_clamped_amended (t : ℚ) (d : Delivery)
    (hD : 0 < effDuration d) :
    (0 ≤ progress t d ∧ progress t d ≤ 1) ∧
    (progress t d = 0 ↔ t ≤ effStart d) ∧
    (progress t d = 1 ↔ effStart d + effDuration d ≤ t) := by
  have hp : progress t d =
      max 0 (min 1 ((t - effStart d) / effDuration d)) := by
    rw [progress, if_pos hD, clamp01]
  set s := effStart d with hs
  set D := effDuration d with hDdef
  set x := (t - s) / D with hx
  have key0 : x ≤ 0 ↔ t ≤ s := by
    rw [hx, div_le_iff₀ hD, zero_mul, sub_nonpos]
  have key1 : 1 ≤ x ↔ s + D ≤ t := by
    rw [hx, le_div_iff₀ hD, one_mul]
    constructor <;> intro h <;> linarith
  refine ⟨⟨?_, ?_⟩, ⟨?_, ?_⟩, ⟨?_, ?_⟩⟩
  · rw [hp]; exact le_max_left _ _
  · rw [hp]; exact max_le (by norm_num) (min_le_left _ _)
  · intro h
    have hm : min 1 x ≤ 0 := by
      have h2 := le_max_right 0 (min 1 x)
      rw [← hp, h] at h2
      exact h2
    rcases min_le_iff.mp hm with h1 | h1
    · linarith
    · exact key0.mp h1
  · intro h
    have hx0 : x ≤ 0 := key0.mpr h
    rw [hp, max_eq_left (le_trans (min_le_right 1 x) hx0)]
  · intro h
    rw [hp] at h
    have hm : min 1 x = 1 := by
      rcases max_choice 0 (min 1 x) with hc | hc
      · rw [hc] at h; norm_num at h
      · rw [hc] at h; exact h
    exact key1.mp (min_eq_left_iff.mp hm)
  · intro h
    have h1x : 1 ≤ x := key1.mpr h
    rw [hp, min_eq_left h1x, max_eq_right zero_le_one]

/-- Claim C1, witness: the amended theorem applied to the delivery
`dWit` (`start_time = 2`, `duration = 4`) at `t = 3`. -/
theorem progress_clamped_amended_witness :
    (0 ≤ progress 3 dWit ∧ progress 3 dWit ≤ 1) ∧
    (progress 3 dWit = 0 ↔ (3 : ℚ) ≤ effStart dWit) ∧
    (progress 3 dWit = 1 ↔ effStart dWit + effDuration dWit ≤ 3) :=
  progress_clamped_amended 3 dWit (by norm_num [effDuration, dWit])

/-- Claim C10: `start_time || 0` treats an absent start time as 0, and
`duration || 10` treats an absent OR zero duration as 10 simulation-time
units, so a zero-duration delivery travels its edge over 10 time units
(at `t = 2` its progress is `1/5`, not yet 1; it reaches 1 at `t = 10`)
instead of appearing instantly at the destination. -/
theorem delivery_defaults :
    (∀ d : Delivery, d.start_time = none → effStart d = 0) ∧
    (∀ d : Delivery, d.duration = none → effDuration d = 10) ∧
    (∀ d : Delivery, d.duration = some 0 → effDuration d = 10) ∧
    (∀ (d : Delivery) (t : ℚ), d.duration = some 0 →
      progress t d = clamp01 ((t - effStart d) / 10)) ∧
    (progress 0 dZero = 0 ∧ progress 2 dZero = 1/5 ∧ progress 2 dZero ≠ 1 ∧
     progress 10 dZero = 1) := by
  refine ⟨?_, ?_, ?_, ?_, ?_, ?_, ?_, ?_⟩
  · intro d h; simp [effStart, h]
  · intro d h; simp [effDuration, h]
  · intro d h; simp [effDuration, h]
  · intro d t h
    have h10 : effDuration d = 10 := by simp [effDuration, h]
    rw [progress, h10, if_pos (by norm_num)]
  · norm_num [progress, effStart, effDuration, clamp01, dZero]
  · norm_num [progress, effStart, effDuration, clamp01, dZero]
  · norm_num [progress, effStart, effDuration, clamp01, dZero]
  · norm_num [progress, effStart, effDuration, clamp01, dZero]

/-- Claim C10, witness: the defaults evaluated on a delivery with absent
start time and zero duration. -/
theorem delivery_defaults_witness :
    effStart ⟨"w2", none, some 0⟩ = 0 ∧ effDuration ⟨"w2", none, some 0⟩ = 10 :=
  ⟨delivery_defaults.1 ⟨"w2", none, some 0⟩ rfl,
   delivery_defaults.2.2.1 ⟨"w2", none, some 0⟩ rfl⟩

/-- At `t = start_time` the computed progress is 0 (both branches of the
duration guard). -/
theorem progress_at_start (d : Delivery) : progress (effStart d) d = 0 := by
  rw [progress]
  split_ifs with h
  · rw [sub_self, zero_div]
    norm_num [clamp01]
  · rfl

/-- At `t = start_time + effDuration` the computed progress is 1. -/
theorem progress_at_end (d : Delivery) (hD : 0 < effDuration d) :
    progress (effStart d + effDuration d) d = 1 := by
  rw [progress, if_pos hD, add_sub_cancel_left, div_self (ne_of_gt hD)]
  norm_num [clamp01]

/-- `projAB` projects node `A` to `(1, 1)`. -/
theorem projAB_evalA : getNodeProjection nodesAB projAB "A" = (1, 1) := rfl

/-- `projAB` projects node `B` to `(2, 1)`. -/
theorem projAB_evalB : getNodeProjection nodesAB projAB "B" = (2, 1) := rfl

/-- Claim C2, counterexample: the claim's own concrete instance — a single
delivery (`start_time = 0`, `duration = 10`, same-edge index 0) rendered
at simulation time 5 on an edge projected from `(1, 1)` to `(2, 1)`.  The
midpoint of the projected segment is `(3/2, 1)`, but the code renders the
particle at `(3/2, 0)`: the index-0 stagger amount is `(0 % 3) - 1 = -1`,
not 0, so the particle is one pixel off the segment, refuting both "sits
exactly at the midpoint" and "index-0 stagger offset is zero". -/
theorem particle_midpoint_offset_cex :
    getNodeProjection nodesAB projAB "A" = (1, 1) ∧
    getNodeProjection nodesAB projAB "B" = (2, 1) ∧
    particlePos nodesAB projAB 5 pdIdx0 = some (3/2, 0) ∧
    ((3/2 : ℝ), (0 : ℝ)) ≠ ((3/2 : ℝ), (1 : ℝ)) := by
  have hprog : progress 5 dTen = 1/2 := by
    norm_num [progress, effStart, effDuration, clamp01, dTen]
  have harg : Complex.arg ⟨(2 : ℝ) - 1, (1 : ℝ) - 1⟩ = 0 := by
    have hone : (⟨(2 : ℝ) - 1, (1 : ℝ) - 1⟩ : ℂ) = 1 := by
      rw [Complex.ext_iff]
      constructor <;> norm_num
    rw [hone, Complex.arg_one]
  refine ⟨projAB_evalA, projAB_evalB, ?_, by norm_num [Prod.ext_iff]⟩
  simp only [particlePos, pdIdx0, edgeAB, projAB_evalA, projAB_evalB, hprog]
  rw [if_neg (by norm_num)]
  rw [harg, zero_add, Real.cos_pi_div_two, Real.sin_pi_div_two]
  norm_num [offsetAmount, Prod.ext_iff]

/-- Claim C2, amended: the rendered position is the linear interpolation
of the projected endpoints PLUS the stagger offset, whose amount is
`(index % 3) - 1`; for index 0 that amount is `-1` (one pixel
perpendicular), not zero, and the exact endpoint equalities hold for the
particles whose same-edge index is ≡ 1 (mod 3), whose offset is zero:
such a particle sits at the projected source at `t = start_time` and at
the projected destination at `t = start_time + effDuration` (provided
neither projected x-coordinate is 0, which the code treats as a missing
endpoint and skips the frame). -/
theorem particle_endpoint_amended (nodes : List Node) (proj : Projection)
    (pd : ParticleDatum)
    (h1 : (getNodeProjection nodes proj pd.edge.from_).1 ≠ 0)
    (h2 : (getNodeProjection nodes proj pd.edge.to_).1 ≠ 0)
    (hidx : pd.deliveryIndex % 3 = 1) :
    offsetAmount 0 = -1 ∧
    particlePos nodes proj (effStart pd.delivery) pd =
      some (getNodeProjection nodes proj pd.edge.from_) ∧
    (0 < effDuration pd.delivery →
      particlePos nodes proj (effStart pd.delivery + effDuration pd.delivery) pd =
        some (getNodeProjection nodes proj pd.edge.to_)) := by
  have hamt : offsetAmount pd.deliveryIndex = 0 := by
    rw [offsetAmount, hidx]
    norm_num
  have hif : ¬((getNodeProjection nodes proj pd.edge.from_).1 = 0 ∨
               (getNodeProjection nodes proj pd.edge.to_).1 = 0) := by
    push_neg
    exact ⟨h1, h2⟩
  refine ⟨by rw [offsetAmount]; norm_num, ?_, ?_⟩
  · simp only [particlePos, progress_at_start, Rat.cast_zero, hamt, mul_zero, zero_mul,
      add_zero, if_neg hif]
  · intro hD
    simp only [particlePos, progress_at_end _ hD, Rat.cast_one, hamt, mul_zero, one_mul,
      add_zero, if_neg hif]
    rw [Option.some_inj, Prod.ext_iff]
    constructor <;> simp

/-- Claim C2, witness: the amended theorem applied to the index-1 particle
of `edgeAB` under `projAB`: at `t = 0` it sits at the projected source
`(1, 1)`, at `t = 10` at the projected destination `(2, 1)`. -/
theorem particle_endpoint_amended_witness :
    particlePos nodesAB projAB 0 pdIdx1 = some (1, 1) ∧
    particlePos nodesAB projAB 10 pdIdx1 = some (2, 1) := by
  have h1 : (getNodeProjection nodesAB projAB pdIdx1.edge.from_).1 ≠ 0 := by
    rw [show pdIdx1.edge.from_ = "A" from rfl, projAB_evalA]
    norm_num
  have h2 : (getNodeProjection nodesAB projAB pdIdx1.edge.to_).1 ≠ 0 := by
    rw [show pdIdx1.edge.to_ = "B" from rfl, projAB_evalB]
    norm_num
  obtain ⟨-, hs, he⟩ := particle_endpoint_amended nodesAB projAB pdIdx1 h1 h2 rfl
  have hstart : effStart pdIdx1.delivery = 0 := rfl
  have hend : effStart pdIdx1.delivery + effDuration pdIdx1.delivery = 10 := by
    norm_num [effStart, effDuration, pdIdx1, dTen]
  have hD : 0 < effDuration pdIdx1.delivery := by
    norm_num [effDuration, pdIdx1, dTen]
  rw [hstart] at hs
  rw [hend] at he
  rw [show pdIdx1.edge.from_ = "A" from rfl, projAB_evalA] at hs
  rw [show pdIdx1.edge.to_ = "B" from rfl, projAB_evalB] at he
  exact ⟨hs, he hD⟩

/-- Claim C3, counterexample: with node `X` selected (and its panel
shown), applying a snapshot from which `X` is absent does NOT clear the
selection and does NOT hide the panel — `update` only refreshes the
tooltip/panel when the id IS found, and never reassigns
`hoveredNode`/`selectedNode`; on a miss it leaves everything as it was,
contradicting the claimed clearing/hiding. -/
theorem selection_not_cleared_cex :
    findNode (snapEmpty.nodes.getD []) nX.id = none ∧
    (update m0 snapEmpty).selectedNode = some nX ∧
    (update m0 snapEmpty).panel = some (detailsPanelView [nX] nX) :=
  ⟨rfl, rfl, rfl⟩

/-- Claim C3, amended: `update` never modifies the hover/selection state;
when the selected (resp. hovered) id is found in the new node collection
the panel (resp. an existing tooltip) re-renders from the refreshed node,
and when it is not found the panel/tooltip keep their previous content —
nothing is cleared or hidden. -/
theorem update_selection_amended (m : MapState) (s : Snapshot) :
    (update m s).hoveredNode = m.hoveredNode ∧
    (update m s).selectedNode = m.selectedNode ∧
    (∀ sel u, m.selectedNode = some sel →
      findNode (s.nodes.getD []) sel.id = some u →
      (update m s).panel = some (detailsPanelView (s.nodes.getD []) u)) ∧
    (∀ sel, m.selectedNode = some sel →
      findNode (s.nodes.getD []) sel.id = none →
      (update m s).panel = m.panel) ∧
    (∀ h u, m.hoveredNode = some h →
      findNode (s.nodes.getD []) h.id = some u →
      (update m s).tooltip = m.tooltip.map (fun _ => tooltipView (s.nodes.getD []) u)) ∧
    (∀ h, m.hoveredNode = some h →
      findNode (s.nodes.getD []) h.id = none →
      (update m s).tooltip = m.tooltip) := by
  refine ⟨rfl, rfl, ?_, ?_, ?_, ?_⟩
  · intro sel u hsel hfind
    simp [update, hsel, hfind]
  · intro sel hsel hfind
    simp [update, hsel, hfind]
  · intro h u hhov hfind
    simp [update, hhov, hfind]
  · intro h hhov hfind
    simp [update, hhov, hfind]

/-- Claim C3, witness: the amended theorem applied to the concrete
scenario of the counterexample — selection object and panel content are
carried over unchanged when the id is absent. -/
theorem update_selection_amended_witness :
    (update m0 snapEmpty).selectedNode = m0.selectedNode ∧
    (update m0 snapEmpty).panel = m0.panel :=
  ⟨(update_selection_amended m0 snapEmpty).2.1,
   (update_selection_amended m0 snapEmpty).2.2.2.1 nX rfl rfl⟩

/-- Claim C4, counterexample: a node whose coordinates the projection
cannot handle (`projNull` returns `null`).  The node render transform
(source line 321) destructures the projection result without a null
check, so rendering throws (modelled by `none`) instead of falling back
to the `[0, 0]` anchor — refuting "for every node … falls back to a fixed
anchor point and never throws".  (The edge-endpoint path, by contrast,
does fall back: second conjunct.) -/
theorem node_projection_throw_cex :
    nodeTransform projNull nA = none ∧
    getNodeProjection [nA] projNull "A" = (0, 0) :=
  ⟨rfl, rfl⟩

/-- Claim C4, amended: EDGE endpoints are safe — `getNodeProjection`
returns the `[0, 0]` anchor both when the referenced node id is absent
and when the projection returns `null`, and every edge stays in the
rendered collection (the data join binds all edges, none is suppressed);
but node and label rendering apply the projection directly and throw on a
`null` projection (no fallback, modelled as `none`). -/
theorem projection_fallback_amended (nodes : List Node) (proj : Projection)
    (nid : String) (edges : List Edge) (prev : List String) :
    (findNode nodes nid = none → getNodeProjection nodes proj nid = (0, 0)) ∧
    (∀ n, findNode nodes nid = some n →
      proj n.location.lon n.location.lat = none →
      getNodeProjection nodes proj nid = (0, 0)) ∧
    (∀ e ∈ edges, edgeKey e ∈ (joinPass prev (edgeKeys edges)).after) ∧
    (∀ n : Node, proj n.location.lon n.location.lat = none →
      nodeTransform proj n = none) := by
  refine ⟨?_, ?_, ?_, ?_⟩
  · intro hfind
    simp [getNodeProjection, hfind]
  · intro n hfind hproj
    simp [getNodeProjection, hfind, hproj]
  · intro e he
    simp only [joinPass, edgeKeys]
    exact List.mem_map_of_mem edgeKey he
  · intro n hproj
    simp [nodeTransform, hproj]

/-- Claim C4, witness: the amended theorem applied to `projNull` — the
edge-endpoint lookup for node `A` falls back to the anchor while the node
transform for `nA` throws. -/
theorem projection_fallback_amended_witness :
    getNodeProjection [nA] projNull "A" = (0, 0) ∧
    nodeTransform projNull nA = none :=
  ⟨(projection_fallback_amended [nA] projNull "A" [] []).2.1 nA rfl rfl,
   (projection_fallback_amended [nA] projNull "A" [] []).2.2.2 nA rfl⟩

/-- The particle key list, re-expressed edge-by-edge. -/
theorem particleKeys_eq (edges : List Edge) :
    particleKeys edges =
      (edges.filter (fun e => e.edge_type == "delivery" && activeOrdersPos e)).flatMap
        (fun e => (e.deliveries.getD []).map (fun dl => dl.order_id)) := by
  rw [particleKeys, deliveryParticles, List.map_flatMap]
  congr 1
  funext e
  rw [List.map_map]
  rw [show ((fun pd : ParticleDatum => pd.delivery.order_id) ∘
        fun p : ℕ × Delivery => (⟨e, p.2, p.1⟩ : ParticleDatum)) =
      (fun dl : Delivery => dl.order_id) ∘ Prod.snd from rfl]
  rw [← List.map_map, List.enum_map_snd]

/-- Claim C5: after a render the particle collection carries exactly one
particle per Delivery record of each delivery-type edge with
`active_orders > 0`, keyed by the delivery's order id: a key is bound iff
some such edge carries a delivery with that order id (so a Delivery
absent from every in-transit edge of the new snapshot has no particle —
the derived set is a pure function of the current edges, with no
transitional frame), and the number of particles is the total number of
Delivery records over qualifying edges; edges of other categories or with
zero activity contribute nothing. -/
theorem particles_characterization (edges : List Edge) :
    (∀ k : String,
      k ∈ particleKeys edges ↔
        ∃ e, e ∈ edges ∧ e.edge_type = "delivery" ∧ activeOrdersPos e = true ∧
          ∃ dl, dl ∈ e.deliveries.getD [] ∧ dl.order_id = k) ∧
    (particleKeys edges).length =
      ((edges.filter (fun e => e.edge_type == "delivery" && activeOrdersPos e)).map
        (fun e => (e.deliveries.getD []).length)).sum := by
  constructor
  · intro k
    rw [particleKeys_eq]
    simp only [List.mem_flatMap, List.mem_filter, List.mem_map, Bool.and_eq_true,
      beq_iff_eq]
    tauto
  · rw [particleKeys_eq, List.length_flatMap]
    simp only [Function.comp_def, List.length_map]

/-- The second pass of a keyed join against its own output has nothing to
enter and nothing to exit. -/
theorem filter_not_contains_self (ks : List String) :
    ks.filter (fun k => !(ks.contains k)) = [] := by
  rw [List.filter_eq_nil_iff]
  intro a ha
  simp [List.contains, List.elem_iff, ha]

/-- A join pass of a key list against itself creates and destroys
nothing. -/
theorem joinPass_self (ks : List String) :
    (joinPass ks ks).entered = [] ∧ (joinPass ks ks).exited = [] :=
  ⟨filter_not_contains_self ks, filter_not_contains_self ks⟩

/-- Claim C6: reconciliation is idempotent.  For every snapshot and every
entity class (nodes, edges, particles, labels), after a first pass binds
the snapshot's keys, a second pass of the same snapshot performs no
create (enter) and no destroy (exit) — it is pure update-in-place.  The
key-uniqueness hypotheses state the data model's identity invariants,
under which the join model is faithful to D3's keyed join. -/
theorem reconciliation_idempotent (s : Snapshot)
    (prevN prevE prevP prevL : List String)
    (_hN : (nodeKeys (s.nodes.getD [])).Nodup)
    (_hE : (edgeKeys (s.edges.getD [])).Nodup)
    (_hP : (particleKeys (s.edges.getD [])).Nodup)
    (_hL : (labelKeys (s.nodes.getD [])).Nodup) :
    ((joinPass (joinPass prevN (nodeKeys (s.nodes.getD []))).after
        (nodeKeys (s.nodes.getD []))).entered = [] ∧
     (joinPass (joinPass prevN (nodeKeys (s.nodes.getD []))).after
        (nodeKeys (s.nodes.getD []))).exited = []) ∧
    ((joinPass (joinPass prevE (edgeKeys (s.edges.getD []))).after
        (edgeKeys (s.edges.getD []))).entered = [] ∧
     (joinPass (joinPass prevE (edgeKeys (s.edges.getD []))).after
        (edgeKeys (s.edges.getD []))).exited = []) ∧
    ((joinPass (joinPass prevP (particleKeys (s.edges.getD []))).after
        (particleKeys (s.edges.getD []))).entered = [] ∧
     (joinPass (joinPass prevP (particleKeys (s.edges.getD []))).after
        (particleKeys (s.edges.getD []))).exited = []) ∧
    ((joinPass (joinPass prevL (labelKeys (s.nodes.getD []))).after
        (labelKeys (s.nodes.getD []))).entered = [] ∧
     (joinPass (joinPass prevL (labelKeys (s.nodes.getD []))).after
        (labelKeys (s.nodes.getD []))).exited = []) :=
  ⟨joinPass_self _, joinPass_self _, joinPass_self _, joinPass_self _⟩

/-- Claim C6, witness: idempotence instantiated on the concrete snapshot
`snapWit` (one node, one active delivery edge), starting from empty
element collections. -/
theorem reconciliation_idempotent_witness :
    (joinPass (joinPass [] (nodeKeys (snapWit.nodes.getD []))).after
       (nodeKeys (snapWit.nodes.getD []))).entered = [] ∧
    (joinPass (joinPass [] (particleKeys (snapWit.edges.getD []))).after
       (particleKeys (snapWit.edges.getD []))).exited = [] := by
  have h := reconciliation_idempotent snapWit [] [] [] []
    (by decide) (by decide) (by decide) (by decide)
  exact ⟨h.1.1, h.2.2.1.2⟩

/-- Claim C7: every node's radius is the type's minimum pixel radius plus
its share of the type's aggregate total (numeric field over the same-type
sum, with fixed default shares 0.33 / 0.125 when the total is zero)
scaled over the type's fixed range (4–12 px for manufacturing centers,
3–9 px for distributors); when all same-type field values are nonnegative
the radius stays inside the range; and on the two-node example with field
values 10 and 30 the radii are 6 and 10, so the first is strictly smaller,
both are in range, and the first's elevation above the minimum is 10/40
of the range span. -/
theorem node_radius_spec :
    (∀ (nodes : List Node) (n : Node),
      (n.type = "manufacturing_center" →
        nodeRadius nodes n = 4 +
          (if 0 < totalProduction nodes
           then n.state.production_rate.getD 0 / totalProduction nodes
           else 33/100) * (12 - 4)) ∧
      (n.type ≠ "manufacturing_center" →
        nodeRadius nodes n = 3 +
          (if 0 < totalOrders nodes
           then n.state.orders_placed.getD 0 / totalOrders nodes
           else 1/8) * (9 - 3))) ∧
    (∀ (nodes : List Node) (n : Node), n ∈ nodes →
      n.type = "manufacturing_center" →
      (∀ m ∈ nodes, 0 ≤ m.state.production_rate.getD 0) →
      4 ≤ nodeRadius nodes n ∧ nodeRadius nodes n ≤ 12) ∧
    (∀ (nodes : List Node) (n : Node), n ∈ nodes →
      n.type = "distributor" →
      (∀ m ∈ nodes, 0 ≤ m.state.orders_placed.getD 0) →
      3 ≤ nodeRadius nodes n ∧ nodeRadius nodes n ≤ 9) ∧
    (nodeRadius nodes7 nM10 = 6 ∧ nodeRadius nodes7 nM30 = 10 ∧
     nodeRadius nodes7 nM10 < nodeRadius nodes7 nM30 ∧
     nodeRadius nodes7 nM10 - 4 = 10/40 * (12 - 4)) := by
  refine ⟨?_, ?_, ?_, ?_, ?_, ?_, ?_⟩
  · intro nodes n
    constructor
    · intro h
      simp only [nodeRadius, if_pos h]
      norm_num
    · intro h
      simp only [nodeRadius, if_neg h]
      norm_num
  · intro nodes n hmem htype hnn
    have hpr : 0 ≤ n.state.production_rate.getD 0 := hnn n hmem
    have hmemf : n ∈ nodes.filter (fun m => m.type == "manufacturing_center") := by
      rw [List.mem_filter]
      exact ⟨hmem, by simp [htype]⟩
    have hprs : n.state.production_rate.getD 0 ≤ totalProduction nodes := by
      apply List.single_le_sum
      · intro x hx
        rw [List.mem_map] at hx
        obtain ⟨m, hm, rfl⟩ := hx
        exact hnn m (List.mem_of_mem_filter hm)
      · exact List.mem_map_of_mem _ hmemf
    simp only [nodeRadius, if_pos htype]
    split_ifs with hT
    · have h0 : 0 ≤ n.state.production_rate.getD 0 / totalProduction nodes :=
        div_nonneg hpr (le_of_lt hT)
      have h1 : n.state.production_rate.getD 0 / totalProduction nodes ≤ 1 :=
        (div_le_one hT).mpr hprs
      constructor <;> nlinarith
    · constructor <;> norm_num
  · intro nodes n hmem htype hnn
    have hpr : 0 ≤ n.state.orders_placed.getD 0 := hnn n hmem
    have hmemf : n ∈ nodes.filter (fun m => m.type == "distributor") := by
      rw [List.mem_filter]
      exact ⟨hmem, by simp [htype]⟩
    have hprs : n.state.orders_placed.getD 0 ≤ totalOrders nodes := by
      apply List.single_le_sum
      · intro x hx
        rw [List.mem_map] at hx
        obtain ⟨m, hm, rfl⟩ := hx
        exact hnn m (List.mem_of_mem_filter hm)
      · exact List.mem_map_of_mem _ hmemf
    have hne : n.type ≠ "manufacturing_center" := by
      rw [htype]
      decide
    simp only [nodeRadius, if_neg hne]
    split_ifs with hT
    · have h0 : 0 ≤ n.state.orders_placed.getD 0 / totalOrders nodes :=
        div_nonneg hpr (le_of_lt hT)
      have h1 : n.state.orders_placed.getD 0 / totalOrders nodes ≤ 1 :=
        (div_le_one hT).mpr hprs
      constructor <;> nlinarith
    · constructor <;> norm_num
  · norm_num [nodeRadius, totalProduction, nodes7, nM10, nM30]
  · norm_num [nodeRadius, totalProduction, nodes7, nM10, nM30]
  · norm_num [nodeRadius, totalProduction, nodes7, nM10, nM30]
  · norm_num [nodeRadius, totalProduction, nodes7, nM10, nM30]

/-- Claim C7, witness: the range bound applied to the concrete two-node
manufacturing population. -/
theorem node_radius_spec_witness :
    4 ≤ nodeRadius nodes7 nM10 ∧ nodeRadius nodes7 nM10 ≤ 12 :=
  node_radius_spec.2.1 nodes7 nM10 (by simp [nodes7]) rfl
    (by
      intro m hm
      rcases (by simpa [nodes7] using hm : m = nM10 ∨ m = nM30) with rfl | rfl <;>
        norm_num [nM10, nM30])

/-- Claim C8, counterexample: a structural edge's opacity is NOT
independent of the activity count — the opacity branch (source lines
194-201) has no structural case, so a structural edge with
`active_orders = 1` renders at the high opacity 0.6 while the same edge
with `active_orders = 0` renders at 0.2, refuting "structural edges get …
low opacity independent of the activity count". -/
theorem structural_opacity_cex :
    eStructAct.edge_type = "structural" ∧ eStructIdle.edge_type = "structural" ∧
    eStructAct.active_orders = some 1 ∧ eStructIdle.active_orders = some 0 ∧
    edgeStrokeOpacity eStructAct = 6/10 ∧ edgeStrokeOpacity eStructIdle = 2/10 ∧
    (6/10 : ℚ) ≠ 2/10 := by
  refine ⟨rfl, rfl, rfl, rfl, ?_, ?_, by norm_num⟩
  · norm_num [edgeStrokeOpacity, activeOrdersPos, eStructAct]
  · norm_num [edgeStrokeOpacity, activeOrdersPos, eStructIdle]

/-- Claim C8, amended: structural edges get the fixed muted color and
width 1 independent of activity; pending-signal (order_placement) and
in-transit (delivery) edges get their per-category fixed colors; width
for non-structural edges and opacity for ALL edges (structural included)
are two-level steps on `active_orders > 0` — opacity is 0.6 when active
and 0.2 otherwise regardless of category, never a continuous function of
the count. -/
theorem edge_visuals_amended (e : Edge) :
    (e.edge_type = "structural" →
      edgeStroke e = "rgba(100, 100, 100, 0.2)" ∧ edgeStrokeWidth e = 1) ∧
    (e.edge_type = "order_placement" →
      edgeStroke e = "rgba(59, 130, 246, 0.7)") ∧
    (e.edge_type ≠ "structural" → e.edge_type ≠ "order_placement" →
      edgeStroke e = "rgba(239, 68, 68, 0.7)") ∧
    (e.edge_type ≠ "structural" →
      edgeStrokeWidth e = if activeOrdersPos e then 2 else 1) ∧
    (activeOrdersPos e = true → edgeStrokeOpacity e = 6/10) ∧
    (activeOrdersPos e = false → edgeStrokeOpacity e = 2/10) := by
  refine ⟨?_, ?_, ?_, ?_, ?_, ?_⟩
  · intro h
    exact ⟨by simp [edgeStroke, h], by simp [edgeStrokeWidth, h]⟩
  · intro h
    simp [edgeStroke, h]
  · intro h1 h2
    simp [edgeStroke, h1, h2]
  · intro h
    simp [edgeStrokeWidth, h]
  · intro h
    simp [edgeStrokeOpacity, h]
  · intro h
    simp [edgeStrokeOpacity, h]

/-- Claim C8, witness: the amended branch table evaluated on the active
structural edge. -/
theorem edge_visuals_amended_witness :
    edgeStroke eStructAct = "rgba(100, 100, 100, 0.2)" ∧
    edgeStrokeWidth eStructAct = 1 ∧
    edgeStrokeOpacity eStructAct = 6/10 := by
  obtain ⟨h1, -, -, -, h5, -⟩ := edge_visuals_amended eStructAct
  obtain ⟨hs, hw⟩ := h1 rfl
  exact ⟨hs, hw, h5 rfl⟩

/-- Claim C9, counterexample: the details panel does NOT truncate the
ranked supplier list — `updateDetailsPanel` (source lines 596-611) sorts
but never slices, so the distributor `nD3` with three supplier
relationships renders three rows in the panel, while the fixed top-N
truncation (N = 2, `.slice(0, 2)`) exists only in the tooltip. -/
theorem panel_not_truncated_cex :
    (relationships nD3).length = 3 ∧
    (panelSuppliers [] nD3).length = 3 ∧
    (tooltipSuppliers [] nD3).length = 2 ∧
    (3 : ℕ) ≠ 2 := by
  have hperm := List.perm_insertionSort supplierOrder (relationships nD3)
  have hlen : (sortedSuppliers nD3).length = 3 := by
    rw [sortedSuppliers, hperm.length_eq]
    rfl
  refine ⟨rfl, ?_, ?_, by norm_num⟩
  · rw [panelSuppliers, List.length_map, hlen]
  · rw [tooltipSuppliers, List.length_map, List.length_take, hlen]
    norm_num

/-- Claim C9, amended: the supplier list is sorted descending by the
performance metric (orders delivered) and is a permutation of the node's
relationships; the TOOLTIP truncates it to the fixed top 2 while the
details panel renders it in full; each row's display name is resolved by
a same-cycle id lookup into the current node collection (city on hit, raw
id on miss); and missing optional fields substitute their defined
defaults (empty relationship set, `nearest_neighbor` policy, zero revenue
and zero margin) instead of aborting. -/
theorem detail_content_amended :
    (∀ n : Node, List.Sorted supplierOrder (sortedSuppliers n) ∧
       (sortedSuppliers n).Perm (relationships n)) ∧
    (∀ (nodes : List Node) (n : Node),
       tooltipSuppliers nodes n = (panelSuppliers nodes n).take 2) ∧
    (∀ (nodes : List Node) (sid : String) (met : SupplierMetrics),
       (∀ u, findNode nodes sid = some u →
         (supplierLine nodes (sid, met)).displayName = u.location.city) ∧
       (findNode nodes sid = none →
         (supplierLine nodes (sid, met)).displayName = sid)) ∧
    (∀ n : Node,
       (n.state.supplier_relationships = none → sortedSuppliers n = []) ∧
       (n.sourcing_policy = none → sourcingPolicy n = "nearest_neighbor") ∧
       (n.state.total_revenue = none →
         (financialView n).revenue = 0 ∧ (financialView n).profitMargin = 0)) := by
  refine ⟨?_, ?_, ?_, ?_⟩
  · intro n
    exact ⟨List.sorted_insertionSort supplierOrder _,
           List.perm_insertionSort supplierOrder _⟩
  · intro nodes n
    rw [tooltipSuppliers, panelSuppliers, List.map_take]
  · intro nodes sid met
    constructor
    · intro u hu
      simp [supplierLine, hu]
    · intro hn
      simp [supplierLine, hn]
  · intro n
    refine ⟨?_, ?_, ?_⟩
    · intro h
      simp [sortedSuppliers, relationships, h]
    · intro h
      simp [sourcingPolicy, h]
    · intro h
      constructor
      · simp [financialView, h]
      · simp [financialView, h]

/-- Claim C9, witness: the amended statement evaluated on concrete nodes —
the tooltip list of the three-supplier distributor is the panel list's
top-2 prefix, and a node with all optional fields absent renders with the
defined defaults. -/
theorem detail_content_amended_witness :
    tooltipSuppliers [] nD3 = (panelSuppliers [] nD3).take 2 ∧
    sortedSuppliers nX = [] ∧
    sourcingPolicy nX = "nearest_neighbor" :=
  ⟨detail_content_amended.2.1 [] nD3,
   (detail_content_amended.2.2.2 nX).1 rfl,
   (detail_content_amended.2.2.2 nX).2.1 rfl⟩

end NetworkMap
